import Mathlib

/-!
# Verification of the ZaphWork x402 SDK client (`src/client.ts`)

Shallow embedding of the SDK client.  HTTP transport is modelled as a
scripted trace: a `World` holds the list of responses the server will
return (consumed one per `fetch`) and a log of the calls that were
issued.  Session state is threaded explicitly.  The external
capabilities (base58 key parsing, ed25519 signing, the system clock)
are modelled as parameters or inert string fields, per the spec's
scope section: they are consumed, not implemented, by this repository.
-/

namespace ZaphWork

/-- JSON values, mirroring the wire bodies (`JSON.stringify`/`response.json()`).
Numbers are rationals (JS numbers at the precision the SDK uses). -/
inductive JValue : Type where
  | nul : JValue
  | bool (b : Bool) : JValue
  | num (q : ℚ) : JValue
  | str (s : String) : JValue
  | arr (xs : List JValue) : JValue
  | obj (fields : List (String × JValue)) : JValue

/-- Field lookup in a parsed JSON object body (objects produced by
`JSON.parse` carry each key once, so first-match lookup is exact). -/
def lookupField : List (String × JValue) → String → Option JValue
  | [], _ => none
  | (k, v) :: rest, key => if k = key then some v else lookupField rest key

/-- `body.field` access on a parsed JSON value: `undefined` (`none`) unless
the value is an object carrying the key. -/
def getField : JValue → String → Option JValue
  | .obj fs, k => lookupField fs k
  | _, _ => none

/-- JavaScript truthiness of a parsed JSON value, used by the
`error.error || fallback` pattern in `client.ts`. -/
def JValue.truthy : JValue → Bool
  | .nul => false
  | .bool b => b
  | .num q => decide (q ≠ 0)
  | .str s => decide (s ≠ "")
  | .arr _ => true
  | .obj _ => true

/-- JavaScript string coercion of a value landing in a string context
(only the string case is exercised by the client; the other renderings
follow the JS defaults). -/
def JValue.displayString : JValue → String
  | .nul => "null"
  | .bool b => if b then "true" else "false"
  | .num q => toString q
  | .str s => s
  | .arr _ => ""
  | .obj _ => "[object Object]"

/-- The `ZaphWorkError` class hierarchy of `src/errors.ts`.
`generic` is the base `ZaphWorkError (message, statusCode?)`; the
subclasses fix their own status codes (401/400/404/400). -/
inductive ZaphWorkError : Type where
  | generic (message : String) (statusCode : Option Nat)
  | authentication (message : String)
  | validation (message : String)
  | notFound (resource : String)
  | insufficientFunds (message : String)

/-- Everything a client method can throw: a typed SDK error, or the raw
`SyntaxError` rejection of `response.json()` on an unparseable body
(uncaught in `request`/`requestWithX402Payment`). -/
inductive Thrown : Type where
  | zaph (e : ZaphWorkError)
  | jsonParse

/-- An HTTP response as the client observes it: status, status text,
the parsed JSON body (`none` when `response.json()` would reject), and
the `set-cookie` header. -/
structure HttpResponse : Type where
  status : Nat
  statusText : String
  body : Option JValue
  setCookie : Option String

/-- `Response.ok` per the fetch standard: status in 200..299. -/
def HttpResponse.isOk (r : HttpResponse) : Bool :=
  decide (200 ≤ r.status) && decide (r.status ≤ 299)

/-- One outbound `fetch` call as issued by the client. -/
structure FetchCall : Type where
  url : String
  method : Option String
  headers : List (String × String)
  body : Option JValue

/-- The transport world: the scripted responses still to be served, and
the log of calls issued so far. -/
structure World : Type where
  responses : List HttpResponse
  calls : List FetchCall

/-- `fetch`: consume the next scripted response and log the call.
`none` means the scripted trace is exhausted: the run is not modelled
past that point. -/
def fetchW (c : FetchCall) (w : World) : Option (HttpResponse × World) :=
  match w.responses with
  | [] => none
  | r :: rs => some (r, { responses := rs, calls := w.calls ++ [c] })

/-- Client session state (`sessionCookie` / `authenticated` fields). -/
structure SessionState : Type where
  authenticated : Bool
  sessionCookie : Option String

/-- `network` config values (`'devnet' | 'mainnet-beta'`). -/
inductive Network : Type where
  | devnet
  | mainnetBeta
deriving DecidableEq

/-- The signing keypair, an external capability (`@solana/web3.js`):
only its base58 public key is observable to the client logic. -/
structure Keypair : Type where
  publicKeyBase58 : String

/-- The immutable part of a constructed `ZaphWorkClient`.
`authMessage`/`authSignatureB58` model the challenge text and its
base58 ed25519 signature produced inside `authenticate()` (they embed
`Date.now()` and `nacl.sign.detached`, both external capabilities;
their values never influence the client's control flow). -/
structure Client : Type where
  apiUrl : String
  keypair : Keypair
  network : Network
  useX402 : Bool
  platformWallet : Option String
  authMessage : String
  authSignatureB58 : String

/-- `getAddress()`: the wallet's base58 public key. -/
def getAddress (c : Client) : String :=
  c.keypair.publicKeyBase58

/-- Options passed to `request` (the `RequestInit` subset the SDK uses).
The body is kept at the parsed-JSON level of abstraction. -/
structure RequestOptions : Type where
  method : Option String
  headers : List (String × String)
  body : Option JValue

/-- Outcome of running a client method against a scripted world:
a returned value, a thrown error, or an exhausted script (the method
was still issuing calls when the trace ran out). -/
inductive RunResult (T : Type) : Type where
  | success (v : T) (st : SessionState) (w : World)
  | failure (e : Thrown) (st : SessionState) (w : World)
  | outOfTrace (st : SessionState) (w : World)

/-- Session state carried by an outcome. -/
def RunResult.state {T : Type} : RunResult T → SessionState
  | .success _ st _ => st
  | .failure _ st _ => st
  | .outOfTrace st _ => st

/-- World carried by an outcome. -/
def RunResult.world {T : Type} : RunResult T → World
  | .success _ _ w => w
  | .failure _ _ w => w
  | .outOfTrace _ w => w

/-- Whether the scripted trace ran out mid-method. -/
def RunResult.isOutOfTrace {T : Type} : RunResult T → Bool
  | .outOfTrace _ _ => true
  | _ => false

/-- Number of logged calls to a given URL. -/
def countCalls (w : World) (url : String) : Nat :=
  (w.calls.filter (fun fc => fc.url == url)).length

/-- Whether the outcome is a thrown error. -/
def RunResult.isFailure {T : Type} : RunResult T → Bool
  | .failure _ _ _ => true
  | _ => false

/-- The thrown error of a failing outcome, if any. -/
def RunResult.thrownOf {T : Type} : RunResult T → Option Thrown
  | .failure e _ _ => some e
  | _ => none

/-- `s.startsWith(p)` on the underlying character lists. -/
def strStartsWith (s p : String) : Bool :=
  p.data.isPrefixOf s.data

/-- Match a literal pattern at the head of a character list, returning
the remainder. -/
def dropPattern : List Char → List Char → Option (List Char)
  | [], s => some s
  | _ :: _, [] => none
  | p :: ps, c :: cs => if p = c then dropPattern ps cs else none

/-- The regex scan `/session=([^;]+)/` of `authenticate()`: at each
position, try to match `session=` followed by at least one non-`;`
character; the capture runs to the next `;` or the end. -/
def sessionMatchChars : List Char → Option String
  | [] => none
  | c :: rest =>
    match dropPattern "session=".data (c :: rest) with
    | some tail =>
      let v := tail.takeWhile (fun ch => !(ch == ';'))
      if v.isEmpty then sessionMatchChars rest else some ⟨v⟩
    | none => sessionMatchChars rest

/-- `setCookie.match(/session=([^;]+)/)`, first capture group. -/
def sessionMatchStr (s : String) : Option String :=
  sessionMatchChars s.data

/-- JS object property assignment `h[k] = v` on an insertion-ordered
record: update in place if present, else append. -/
def hset : List (String × String) → String → String → List (String × String)
  | [], k, v => [(k, v)]
  | (k', v') :: rest, k, v =>
    if k' = k then (k, v) :: rest else (k', v') :: hset rest k v

/-- Object spread `\x7b ...base, ...adds \x7d`: later keys override earlier ones. -/
def spreadInto (base adds : List (String × String)) : List (String × String) :=
  adds.foldl (fun acc kv => hset acc kv.1 kv.2) base

/-- Header lookup. -/
def hget : List (String × String) → String → Option String
  | [], _ => none
  | (k', v) :: rest, k => if k' = k then some v else hget rest k

/-- `config.apiUrl.replace(/\/$/, '')`: strip one trailing slash. -/
def stripTrailingSlash (s : String) : String :=
  match s.data.reverse with
  | '/' :: rest => ⟨rest.reverse⟩
  | _ => s

/-- The `ZaphWorkConfig` construction input (`src/types.ts`). -/
structure ZaphWorkConfig : Type where
  apiUrl : String
  privateKey : String
  network : Option Network
  useX402 : Option Bool
  platformWallet : Option String

/-- The `ZaphWorkClient` constructor (`client.ts` lines 39-52).
`parseKey` is the external `bs58.decode` + `Keypair.fromSecretKey`
capability: `none` models either call throwing on a malformed key.
`authMessage`/`authSig` feed the modelled signing capability (see
`Client`).  The constructor contains no transport invocation, so it
does not touch a `World`. -/
def mkClient (parseKey : String → Option Keypair)
    (authMessage authSig : String)
    (config : ZaphWorkConfig) : Except ZaphWorkError Client :=
  match parseKey config.privateKey with
  | none =>
    .error (.validation "Invalid private key format. Expected base58-encoded string.")
  | some kp =>
    .ok { apiUrl := stripTrailingSlash config.apiUrl
          keypair := kp
          network := config.network.getD .devnet
          useX402 := config.useX402.getD false
          platformWallet := config.platformWallet
          authMessage := authMessage
          authSignatureB58 := authSig }

/-- The constructor threaded through a `World`, making explicit that it
issues no network call: the world component is returned unchanged. -/
def mkClientW (parseKey : String → Option Keypair)
    (authMessage authSig : String)
    (config : ZaphWorkConfig) (w : World) :
    Except ZaphWorkError Client × World :=
  (mkClient parseKey authMessage authSig config, w)

/-- Body of the wallet-connect call (`client.ts` lines 74-77). -/
def connectBody (c : Client) : JValue :=
  .obj [("walletAddress", .str (getAddress c)), ("walletType", .str "phantom")]

/-- Body of the session-create call (`client.ts` lines 95-99). -/
def sessionBody (c : Client) : JValue :=
  .obj [("walletAddress", .str (getAddress c)),
        ("signature", .str c.authSignatureB58),
        ("message", .str c.authMessage)]

/-- Host-engine rendering of the `SyntaxError` thrown by
`response.json()`; the exact text is environment-defined and no claim
depends on it. -/
def syntaxErrorText : String := "SyntaxError: unexpected JSON input"

/-- `error.error || fallback` on a parsed error body. -/
def errorFieldOr (b : JValue) (fallback : String) : String :=
  match getField b "error" with
  | some v => if v.truthy then v.displayString else fallback
  | none => fallback

/-- `authenticate()` (`client.ts` lines 64-123): connect the wallet,
sign the challenge, create the session, extract the session cookie.
Mutates `SessionState`; wraps non-`ZaphWorkError` exceptions (the only
one reachable: the JSON parse rejection on the session error body)
into `AuthenticationError`. -/
def authenticate (c : Client) (st : SessionState) (w : World) : RunResult Unit :=
  match fetchW { url := c.apiUrl ++ "/api/auth/wallet/connect"
                 method := some "POST"
                 headers := [("Content-Type", "application/json")]
                 body := some (connectBody c) } w with
  | none => .outOfTrace st w
  | some (connectResponse, w1) =>
    if !connectResponse.isOk then
      .failure (.zaph (.authentication "Failed to connect wallet")) st w1
    else
      match fetchW { url := c.apiUrl ++ "/api/auth/session"
                     method := some "POST"
                     headers := [("Content-Type", "application/json")]
                     body := some (sessionBody c) } w1 with
      | none => .outOfTrace st w1
      | some (sessionResponse, w2) =>
        if !sessionResponse.isOk then
          match sessionResponse.body with
          | none =>
            -- `await sessionResponse.json()` rejects; the outer catch wraps
            -- the SyntaxError: AuthenticationError(`Authentication failed: ...`)
            .failure (.zaph (.authentication
              ("Authentication failed: " ++ syntaxErrorText))) st w2
          | some b =>
            .failure (.zaph (.authentication
              (errorFieldOr b "Failed to create session"))) st w2
        else
          let cookie : Option String :=
            match sessionResponse.setCookie with
            | some sc =>
              match sessionMatchStr sc with
              | some v => some v
              | none => st.sessionCookie
            | none => st.sessionCookie
          .success () { authenticated := true, sessionCookie := cookie } w2

/-- A `PaymentProof` as returned by the (stub) payment constructor. -/
structure PaymentProof : Type where
  signature : String
  amount : ℚ
  timestamp : ℚ
  endpoint : String

/-- `JSON.stringify(paymentProof)` (only reachable through dead code,
since the proof constructor below always throws). -/
def PaymentProof.stringify (p : PaymentProof) : String :=
  "\x7b\"signature\":\"" ++ p.signature ++ "\",\"amount\":" ++ toString p.amount
    ++ ",\"timestamp\":" ++ toString p.timestamp
    ++ ",\"endpoint\":\"" ++ p.endpoint ++ "\"\x7d"

/-- `makeX402Payment` (`client.ts` lines 230-250): the unconditional
"not implemented" stub.  Its argument is `paymentInfo.payment` from
the 402 body, which it never inspects. -/
def makeX402Payment (_paymentInfo : Option JValue) : Except ZaphWorkError PaymentProof :=
  .error (.generic
    "x402 payment not yet implemented in SDK. Use regular session auth for now." none)

/-- `error.error || 'Request failed: <statusText>'` after
`response.json().catch(() => (\x7b error: 'Unknown error' \x7d))`
(`client.ts` lines 166-167): an unparseable body yields the literal
`'Unknown error'`; a parsed body without a truthy `error` field falls
back to the status text. -/
def errMessage (r : HttpResponse) : String :=
  let parsed : JValue :=
    match r.body with
    | none => .obj [("error", .str "Unknown error")]
    | some b => b
  errorFieldOr parsed ("Request failed: " ++ r.statusText)

/-- `requestWithX402Payment` (`client.ts` lines 176-225): issue the
call unauthenticated; on 402 parse the challenge, build a payment
proof (always throws in this repository), and — in the dead branch —
retry with the four payment headers; on other failures throw a
`ZaphWorkError` with the status.  Never reads or writes session
state. -/
def requestWithX402Payment (c : Client) (endpoint : String)
    (options : RequestOptions) (st : SessionState) (w : World) : RunResult JValue :=
  match fetchW { url := c.apiUrl ++ endpoint
                 method := options.method
                 headers := spreadInto [("Content-Type", "application/json")] options.headers
                 body := options.body } w with
  | none => .outOfTrace st w
  | some (response, w1) =>
    if response.status = 402 then
      match response.body with
      | none => .failure .jsonParse st w1
      | some paymentInfo =>
        match makeX402Payment (getField paymentInfo "payment") with
        | .error e => .failure (.zaph e) st w1
        | .ok paymentProof =>
          -- dead in this repository: makeX402Payment always throws
          let headers := spreadInto
            [("Content-Type", "application/json"),
             ("x-payment-proof", paymentProof.stringify),
             ("x-payment-signature", paymentProof.signature),
             ("x-payment-amount", toString paymentProof.amount),
             ("x-payment-timestamp", toString paymentProof.timestamp)]
            options.headers
          match fetchW { url := c.apiUrl ++ endpoint
                         method := options.method
                         headers := headers
                         body := options.body } w1 with
          | none => .outOfTrace st w1
          | some (paidResponse, w2) =>
            if !paidResponse.isOk then
              .failure (.zaph (.generic (errMessage paidResponse)
                (some paidResponse.status))) st w2
            else
              match paidResponse.body with
              | none => .failure .jsonParse st w2
              | some b => .success b st w2
    else if !response.isOk then
      .failure (.zaph (.generic (errMessage response) (some response.status))) st w1
    else
      match response.body with
      | none => .failure .jsonParse st w1
      | some b => .success b st w1

/-- The session-authenticated tail of `request` once authentication is
settled (`client.ts` lines 144-170): attach `Content-Type`, caller
headers, then the `Cookie` header (so caller headers cannot override
it); fetch; on 401 clear session state and re-enter `request` (the
`retry` continuation); on other failures throw a `ZaphWorkError` with
the status; on success return the parsed body. -/
def afterAuth (c : Client) (retry : SessionState → World → RunResult JValue)
    (endpoint : String) (options : RequestOptions)
    (st : SessionState) (w : World) : RunResult JValue :=
  let headers0 := spreadInto [("Content-Type", "application/json")] options.headers
  let headers :=
    match st.sessionCookie with
    | some ck => hset headers0 "Cookie" ("session=" ++ ck)
    | none => headers0
  match fetchW { url := c.apiUrl ++ endpoint
                 method := options.method
                 headers := headers
                 body := options.body } w with
  | none => .outOfTrace st w
  | some (response, w1) =>
    if response.status = 401 then
      retry { authenticated := false, sessionCookie := none } w1
    else if !response.isOk then
      .failure (.zaph (.generic (errMessage response) (some response.status))) st w1
    else
      match response.body with
      | none => .failure .jsonParse st w1
      | some b => .success b st w1

/-- The session path of `request` (`client.ts` lines 140-170):
authenticate first if the session is not marked authenticated, then
run the authenticated tail. -/
def sessionRequest (c : Client) (retry : SessionState → World → RunResult JValue)
    (endpoint : String) (options : RequestOptions)
    (st : SessionState) (w : World) : RunResult JValue :=
  if !st.authenticated then
    match authenticate c st w with
    | .success _ st1 w1 => afterAuth c retry endpoint options st1 w1
    | .failure e st1 w1 => .failure e st1 w1
    | .outOfTrace st1 w1 => .outOfTrace st1 w1
  else
    afterAuth c retry endpoint options st w

/-- `request` (`client.ts` lines 128-171) with explicit fuel bounding
the 401-triggered recursive self-call.  Fuel 0 stands for a recursion
still in flight; the `request` wrapper below supplies more fuel than
the scripted trace can consume, so fuel only runs out together with
the trace. -/
def requestGo (c : Client) : Nat → String → RequestOptions →
    SessionState → World → RunResult JValue
  | 0, _, _, st, w => .outOfTrace st w
  | Nat.succ fuel, endpoint, options, st, w =>
    if strStartsWith endpoint "/api/x402/" && c.useX402 then
      requestWithX402Payment c endpoint options st w
    else
      sessionRequest c (requestGo c fuel endpoint options) endpoint options st w

/-- `request(endpoint, options)`: the dispatcher entry point. -/
def request (c : Client) (endpoint : String) (options : RequestOptions)
    (st : SessionState) (w : World) : RunResult JValue :=
  requestGo c (w.responses.length + 1) endpoint options st w

/-- `claimFaucet()` (`client.ts` lines 267-272): local devnet guard,
then a POST to the faucet endpoint. -/
def claimFaucet (c : Client) (st : SessionState) (w : World) : RunResult JValue :=
  if c.network ≠ Network.devnet then
    .failure (.zaph (.validation "Faucet is only available on devnet")) st w
  else
    request c "/api/wallet/claim-usdc-dev"
      { method := some "POST", headers := [], body := none } st w

/-- A JS `Date`, observable here only through `toISOString()` (the
clock and calendar arithmetic are external). -/
structure JsDate : Type where
  iso : String

/-- `CreateTaskParams` (`src/types.ts`). -/
structure CreateTaskParams : Type where
  title : String
  description : String
  category : String
  paymentAmount : ℚ
  currency : Option String
  deadline : Option JsDate
  workersNeeded : Option ℚ

/-- `params.currency || 'USDC'` (the empty string is falsy). -/
def orUSDC : Option String → String
  | none => "USDC"
  | some s => if s = "" then "USDC" else s

/-- `params.workersNeeded || 1` (zero is falsy). -/
def orOne : Option ℚ → ℚ
  | none => 1
  | some q => if q = 0 then 1 else q

/-- The wire JSON body `createTask` serializes (`client.ts` lines
308-316).  `JSON.stringify` drops the `deadline` key when
`params.deadline?.toISOString()` is `undefined`. -/
def createTaskBody (p : CreateTaskParams) : List (String × JValue) :=
  [("title", .str p.title),
   ("description", .str p.description),
   ("category", .str p.category),
   ("payment_amount", .num p.paymentAmount),
   ("currency", .str (orUSDC p.currency))]
  ++ (match p.deadline with
      | some d => [("deadline", .str d.iso)]
      | none => [])
  ++ [("workers_needed", .num (orOne p.workersNeeded))]

/-- The wire JSON body `createTaskX402` serializes (`client.ts` lines
328-336): identical except the payment field is `payment_per_task`. -/
def createTaskX402Body (p : CreateTaskParams) : List (String × JValue) :=
  [("title", .str p.title),
   ("description", .str p.description),
   ("category", .str p.category),
   ("payment_per_task", .num p.paymentAmount),
   ("currency", .str (orUSDC p.currency))]
  ++ (match p.deadline with
      | some d => [("deadline", .str d.iso)]
      | none => [])
  ++ [("workers_needed", .num (orOne p.workersNeeded))]

/-- Rename one key of a serialized body, keeping every value. -/
def renameKey (fromKey toKey : String) (l : List (String × JValue)) :
    List (String × JValue) :=
  l.map (fun kv => if kv.1 = fromKey then (toKey, kv.2) else kv)

/-- `createTask(params)` (`client.ts` lines 303-319): pick the endpoint
by `useX402`, POST the serialized body through `request`, unwrap
`response.task`. -/
def createTask (c : Client) (p : CreateTaskParams)
    (st : SessionState) (w : World) : RunResult (Option JValue) :=
  let endpoint := if c.useX402 then "/api/x402/tasks" else "/api/tasks/create"
  match request c endpoint
      { method := some "POST", headers := [], body := some (.obj (createTaskBody p)) }
      st w with
  | .success b st1 w1 => .success (getField b "task") st1 w1
  | .failure e st1 w1 => .failure e st1 w1
  | .outOfTrace st1 w1 => .outOfTrace st1 w1

/-- `createTaskX402(params)` (`client.ts` lines 325-339): always the
x402 endpoint through the payment dispatcher, with the
`payment_per_task` body. -/
def createTaskX402 (c : Client) (p : CreateTaskParams)
    (st : SessionState) (w : World) : RunResult (Option JValue) :=
  match requestWithX402Payment c "/api/x402/tasks"
      { method := some "POST", headers := [], body := some (.obj (createTaskX402Body p)) }
      st w with
  | .success b st1 w1 => .success (getField b "task") st1 w1
  | .failure e st1 w1 => .failure e st1 w1
  | .outOfTrace st1 w1 => .outOfTrace st1 w1

/-- `task.status === targetStatus` on a fetched task value. -/
def taskStatusIs (task : JValue) (target : String) : Bool :=
  match getField task "status" with
  | some (.str s) => s == target
  | _ => false

/-- The timeout message of `waitForTaskStatus` (`client.ts` line 531). -/
def timeoutMessage (taskId targetStatus : String) : String :=
  "Timeout waiting for task " ++ taskId ++ " to reach status " ++ targetStatus

/-- The polling loop of `waitForTaskStatus` (`client.ts` lines
521-531), with the `Date.now()` readings and the successful `getTask`
results supplied as a trace (one pair per iteration; the
`pollIntervalMs` sleep is observable only through the next clock
reading).  Each iteration: check `Date.now() - startTime < timeoutMs`;
if the deadline passed, throw the timeout `ZaphWorkError` (no status
code); otherwise fetch the task and return it if its status matches.
`none` means the supplied trace ran out while the loop was still
polling. -/
def waitLoop (taskId targetStatus : String) (startTime timeoutMs : Int) :
    List (Int × JValue) → Option (Except ZaphWorkError JValue)
  | [] => none
  | (now, task) :: rest =>
    if now - startTime < timeoutMs then
      if taskStatusIs task targetStatus then
        some (.ok task)
      else
        waitLoop taskId targetStatus startTime timeoutMs rest
    else
      some (.error (.generic (timeoutMessage taskId targetStatus) none))

/-! ## Helper lemmas -/

theorem hget_hset_ne (k a v : String) :
    ∀ l : List (String × String), a ≠ k → hget (hset l a v) k = hget l k := by
  intro l
  induction l with
  | nil => intro h; simp [hset, hget, h]
  | cons kv rest ih =>
    intro h
    obtain ⟨k1, v1⟩ := kv
    by_cases h1 : k1 = a
    · subst h1
      simp [hset, hget, h]
    · simp [hset, hget, h1, ih h]

theorem hget_spreadInto_none (k : String) :
    ∀ (adds base : List (String × String)), hget adds k = none →
      hget base k = none → hget (spreadInto base adds) k = none := by
  intro adds
  induction adds with
  | nil =>
    intro base _ hb
    simpa [spreadInto] using hb
  | cons kv rest ih =>
    intro base ha hb
    obtain ⟨a, v⟩ := kv
    have hak : a ≠ k := by
      intro h
      subst h
      simp [hget] at ha
    have ha1 : hget rest k = none := by
      simpa [hget, hak] using ha
    have hstep : spreadInto base ((a, v) :: rest) = spreadInto (hset base a v) rest := rfl
    rw [hstep]
    exact ih (hset base a v) ha1 (by rw [hget_hset_ne k a v base hak]; exact hb)

/-- The single unauthenticated call `requestWithX402Payment` issues
before inspecting the response. -/
def initialX402Call (c : Client) (ep : String) (opts : RequestOptions) : FetchCall :=
  { url := c.apiUrl ++ ep
    method := opts.method
    headers := spreadInto [("Content-Type", "application/json")] opts.headers
    body := opts.body }

theorem requestWithX402Payment_state_eq (c : Client) (ep : String)
    (opts : RequestOptions) (st : SessionState) (w : World) :
    (requestWithX402Payment c ep opts st w).state = st := by
  obtain ⟨resps, calls⟩ := w
  cases resps with
  | nil => rfl
  | cons r rest =>
    simp only [requestWithX402Payment, fetchW, makeX402Payment]
    split
    · split <;> rfl
    · split
      · rfl
      · split <;> rfl

theorem requestWithX402Payment_world_cons (c : Client) (ep : String)
    (opts : RequestOptions) (st : SessionState) (r : HttpResponse)
    (rest : List HttpResponse) (calls : List FetchCall) :
    (requestWithX402Payment c ep opts st ⟨r :: rest, calls⟩).world
      = ⟨rest, calls ++ [initialX402Call c ep opts]⟩ := by
  simp only [requestWithX402Payment, fetchW, makeX402Payment, initialX402Call]
  split
  · split <;> rfl
  · split
    · rfl
    · split <;> rfl

/-! ## Concrete fixtures for closed statements -/

/-- A concrete constructed client: empty base URL (so logged URLs are
the endpoints themselves), devnet, session auth. -/
def fixtureClient : Client :=
  { apiUrl := ""
    keypair := ⟨"a"⟩
    network := .devnet
    useX402 := false
    platformWallet := none
    authMessage := "m"
    authSignatureB58 := "s" }

/-- Empty request options (`options = \x7b\x7d`). -/
def fixtureOptions : RequestOptions :=
  { method := none, headers := [], body := none }

/-- A successful handshake-step response with no cookie. -/
def okResponse : HttpResponse :=
  { status := 200, statusText := "OK", body := some (.obj []), setCookie := none }

/-- A 401 response. -/
def unauthorizedResponse : HttpResponse :=
  { status := 401, statusText := "Unauthorized", body := some (.obj []), setCookie := none }

/-- A server that answers every handshake call with success and every
endpoint call with 401, three rounds deep. -/
def persistent401World : World :=
  { responses := [okResponse, okResponse, unauthorizedResponse,
                  okResponse, okResponse, unauthorizedResponse,
                  okResponse, okResponse, unauthorizedResponse]
    calls := [] }

/-- A 500 response whose body is not parseable JSON. -/
def badJson500Response : HttpResponse :=
  { status := 500, statusText := "Internal Server Error", body := none, setCookie := none }

/-! ## Claim theorems -/

/-- C9: for every config whose `privateKey` the key-parsing capability
rejects, constructing the client fails with the `ValidationError` of
`client.ts` lines 49-51, and the transport world is returned untouched
(the constructor contains no `fetch`): no HTTP request is made. -/
theorem mkClient_invalid_key_validation_failure :
    ∀ (parseKey : String → Option Keypair) (msg sig : String)
      (config : ZaphWorkConfig) (w : World),
      parseKey config.privateKey = none →
      mkClientW parseKey msg sig config w =
        (.error (.validation "Invalid private key format. Expected base58-encoded string."), w) := by
  intro parseKey msg sig config w h
  simp [mkClientW, mkClient, h]

theorem mkClient_invalid_key_validation_failure_witness :
    mkClientW (fun _ => none) "m" "s"
        { apiUrl := "https://api", privateKey := "notakey",
          network := none, useX402 := none, platformWallet := none } ⟨[], []⟩ =
      (.error (.validation "Invalid private key format. Expected base58-encoded string."), ⟨[], []⟩) :=
  mkClient_invalid_key_validation_failure (fun _ => none) "m" "s" _ _ rfl

/-- C10: on any client whose network is not devnet, `claimFaucet`
fails with the local `ValidationError` guard of `client.ts` lines
268-270, with the session state and the world (hence the call log)
returned unchanged: zero network calls. -/
theorem claimFaucet_non_devnet_validation_failure :
    ∀ (c : Client) (st : SessionState) (w : World),
      c.network ≠ Network.devnet →
      claimFaucet c st w =
        .failure (.zaph (.validation "Faucet is only available on devnet")) st w := by
  intro c st w h
  simp [claimFaucet, h]

theorem claimFaucet_non_devnet_validation_failure_witness :
    claimFaucet { fixtureClient with network := .mainnetBeta } ⟨false, none⟩ ⟨[], []⟩ =
      .failure (.zaph (.validation "Faucet is only available on devnet")) ⟨false, none⟩ ⟨[], []⟩ :=
  claimFaucet_non_devnet_validation_failure _ _ _ (by simp [fixtureClient])

/-- C8: the wire body `createTask` serializes for
`\x7b title:"t", description:"d", category:"data", paymentAmount:5.0 \x7d`
carries `payment_amount: 5.0`, the default `currency: "USDC"` and the
default `workers_needed: 1`; in general the camelCase parameters map
to these snake_case fields with exactly those two defaults. -/
theorem createTask_wire_body_defaults :
    createTaskBody { title := "t", description := "d", category := "data",
                     paymentAmount := 5, currency := none, deadline := none,
                     workersNeeded := none } =
      [("title", .str "t"), ("description", .str "d"), ("category", .str "data"),
       ("payment_amount", .num 5), ("currency", .str "USDC"),
       ("workers_needed", .num 1)]
    ∧ (∀ t d cat amt dl,
        lookupField (createTaskBody ⟨t, d, cat, amt, none, dl, none⟩) "currency"
          = some (.str "USDC"))
    ∧ (∀ t d cat amt cur dl,
        lookupField (createTaskBody ⟨t, d, cat, amt, cur, dl, none⟩) "workers_needed"
          = some (.num 1))
    ∧ (∀ p, lookupField (createTaskBody p) "payment_amount" = some (.num p.paymentAmount))
    ∧ (∀ p, lookupField (createTaskBody p) "title" = some (.str p.title)
          ∧ lookupField (createTaskBody p) "description" = some (.str p.description)
          ∧ lookupField (createTaskBody p) "category" = some (.str p.category)) := by
  refine ⟨rfl, ?_, ?_, ?_, ?_⟩
  · intro t d cat amt dl
    rfl
  · intro t d cat amt cur dl
    cases dl <;> rfl
  · intro p
    rfl
  · intro p
    exact ⟨rfl, rfl, rfl⟩

/-- C6: `createTask` and `createTaskX402` serialize the payment
parameter under different wire names — `payment_amount` versus
`payment_per_task` — and agree on every other serialized field: the
x402 body is exactly the session body with that one key renamed. -/
theorem createTask_vs_createTaskX402_payment_field :
    (∀ p, createTaskX402Body p = renameKey "payment_amount" "payment_per_task" (createTaskBody p))
    ∧ (∀ p, lookupField (createTaskBody p) "payment_amount" = some (.num p.paymentAmount)
          ∧ lookupField (createTaskBody p) "payment_per_task" = none)
    ∧ (∀ p, lookupField (createTaskX402Body p) "payment_per_task" = some (.num p.paymentAmount)
          ∧ lookupField (createTaskX402Body p) "payment_amount" = none) := by
  refine ⟨?_, ?_, ?_⟩
  · intro p
    obtain ⟨t, d, cat, amt, cur, dl, wn⟩ := p
    cases dl <;> rfl
  · intro p
    obtain ⟨t, d, cat, amt, cur, dl, wn⟩ := p
    exact ⟨rfl, by cases dl <;> rfl⟩
  · intro p
    obtain ⟨t, d, cat, amt, cur, dl, wn⟩ := p
    exact ⟨rfl, by cases dl <;> rfl⟩

/-- C3: `makeX402Payment` is an unconditional "not implemented"
failure, and consequently whenever the first unauthenticated call of
`requestWithX402Payment` comes back with status 402, the whole
operation throws (it never produces a success value). -/
theorem requestWithX402Payment_402_always_fails :
    (∀ pi, makeX402Payment pi =
      .error (.generic
        "x402 payment not yet implemented in SDK. Use regular session auth for now." none))
    ∧ (∀ (c : Client) (ep : String) (opts : RequestOptions) (st : SessionState)
        (r : HttpResponse) (rest : List HttpResponse) (calls : List FetchCall),
        r.status = 402 →
        (requestWithX402Payment c ep opts st ⟨r :: rest, calls⟩).isFailure = true) := by
  constructor
  · intro pi
    rfl
  · intro c ep opts st r rest calls h402
    simp only [requestWithX402Payment, fetchW, makeX402Payment, h402, if_pos]
    split <;> rfl

theorem requestWithX402Payment_402_always_fails_witness :
    (requestWithX402Payment fixtureClient "/api/x402/tasks" fixtureOptions ⟨false, none⟩
      ⟨[{ status := 402, statusText := "Payment Required",
          body := some (.obj [("payment", .obj [])]), setCookie := none }], []⟩).isFailure
      = true :=
  requestWithX402Payment_402_always_fails.2 fixtureClient "/api/x402/tasks" fixtureOptions
    ⟨false, none⟩ _ [] [] rfl

/-- C7: `requestWithX402Payment` leaves the session state untouched on
every path, and — provided the caller-supplied options carry no
`Cookie` header of their own — none of the calls it issues carries a
`Cookie` header: the requests go out unauthenticated. -/
theorem requestWithX402Payment_unauthenticated_frame :
    ∀ (c : Client) (ep : String) (opts : RequestOptions) (st : SessionState) (w : World),
      (requestWithX402Payment c ep opts st w).state = st
      ∧ (hget opts.headers "Cookie" = none →
          (((requestWithX402Payment c ep opts st w).world).calls.drop w.calls.length).all
            (fun fc => (hget fc.headers "Cookie").isNone) = true) := by
  intro c ep opts st w
  refine ⟨requestWithX402Payment_state_eq c ep opts st w, ?_⟩
  intro hopts
  obtain ⟨resps, calls⟩ := w
  cases resps with
  | nil =>
    simp [requestWithX402Payment, fetchW, RunResult.world, List.drop_length]
  | cons r rest =>
    rw [requestWithX402Payment_world_cons]
    simp only [List.drop_left, List.all_cons, List.all_nil, Bool.and_true]
    have : hget (initialX402Call c ep opts).headers "Cookie" = none := by
      simp only [initialX402Call]
      exact hget_spreadInto_none "Cookie" opts.headers
        [("Content-Type", "application/json")] hopts rfl
    simp [this]

theorem requestWithX402Payment_unauthenticated_frame_witness :
    ((((requestWithX402Payment fixtureClient "/api/x402/tasks" fixtureOptions ⟨true, some "ck"⟩
        ⟨[okResponse], []⟩).world).calls.drop 0).all
      (fun fc => (hget fc.headers "Cookie").isNone) = true)
    ∧ (requestWithX402Payment fixtureClient "/api/x402/tasks" fixtureOptions ⟨true, some "ck"⟩
        ⟨[okResponse], []⟩).state = ⟨true, some "ck"⟩ :=
  ⟨(requestWithX402Payment_unauthenticated_frame fixtureClient "/api/x402/tasks" fixtureOptions
      ⟨true, some "ck"⟩ ⟨[okResponse], []⟩).2 rfl,
   (requestWithX402Payment_unauthenticated_frame fixtureClient "/api/x402/tasks" fixtureOptions
      ⟨true, some "ck"⟩ ⟨[okResponse], []⟩).1⟩

theorem requestGo_useX402_irrelevant (c : Client) (b : Bool) (ep : String)
    (opts : RequestOptions) (h : strStartsWith ep "/api/x402/" = false) :
    ∀ (fuel : Nat) (st : SessionState) (w : World),
      requestGo { c with useX402 := b } fuel ep opts st w
        = requestGo { c with useX402 := false } fuel ep opts st w := by
  intro fuel
  induction fuel with
  | zero =>
    intro st w
    rfl
  | succ n ih =>
    intro st w
    have hr : requestGo { c with useX402 := b } n ep opts
        = requestGo { c with useX402 := false } n ep opts := by
      funext st1 w1
      exact ih st1 w1
    simp only [requestGo, h, Bool.false_and, Bool.false_eq_true, if_false]
    rw [hr]
    rfl

/-- C5: `useX402` is invisible to `request` on every endpoint outside
the `/api/x402/` payment-gated path — the behaviour is identical for
any value of the flag — and `request` hands over to the
payment-challenge dispatcher exactly when the endpoint is under the
path and the flag is on; in every other case it runs the
session-authenticated path (`sessionRequest`: handshake when needed,
`Cookie` header, 401 retry). -/
theorem request_x402_routing :
    (∀ (c : Client) (b : Bool) (ep : String) (opts : RequestOptions)
        (st : SessionState) (w : World),
      strStartsWith ep "/api/x402/" = false →
      request { c with useX402 := b } ep opts st w
        = request { c with useX402 := false } ep opts st w)
    ∧ (∀ (c : Client) (ep : String) (opts : RequestOptions)
        (st : SessionState) (w : World),
      (strStartsWith ep "/api/x402/" && c.useX402) = true →
      request c ep opts st w = requestWithX402Payment c ep opts st w)
    ∧ (∀ (c : Client) (ep : String) (opts : RequestOptions)
        (st : SessionState) (w : World),
      (strStartsWith ep "/api/x402/" && c.useX402) = false →
      request c ep opts st w
        = sessionRequest c (requestGo c w.responses.length ep opts) ep opts st w) := by
  refine ⟨?_, ?_, ?_⟩
  · intro c b ep opts st w h
    exact requestGo_useX402_irrelevant c b ep opts h (w.responses.length + 1) st w
  · intro c ep opts st w h
    simp only [request, requestGo, h, if_true]
  · intro c ep opts st w h
    simp only [request, requestGo, h, Bool.false_eq_true, if_false]

theorem request_x402_routing_witness :
    request { fixtureClient with useX402 := true } "/api/x402/tasks" fixtureOptions
        ⟨false, none⟩ ⟨[], []⟩
      = requestWithX402Payment { fixtureClient with useX402 := true } "/api/x402/tasks"
          fixtureOptions ⟨false, none⟩ ⟨[], []⟩ :=
  request_x402_routing.2.1 { fixtureClient with useX402 := true } "/api/x402/tasks"
    fixtureOptions ⟨false, none⟩ ⟨[], []⟩ rfl

theorem request_authenticated_error_run (c : Client) (ep : String) (opts : RequestOptions)
    (st : SessionState) (r : HttpResponse) (rest : List HttpResponse)
    (calls : List FetchCall)
    (hx : (strStartsWith ep "/api/x402/" && c.useX402) = false)
    (hauth : st.authenticated = true)
    (h401 : ¬ r.status = 401)
    (hok : r.isOk = false) :
    (request c ep opts st ⟨r :: rest, calls⟩).thrownOf
        = some (.zaph (.generic (errMessage r) (some r.status)))
    ∧ (request c ep opts st ⟨r :: rest, calls⟩).state = st := by
  simp only [request, List.length_cons, requestGo, hx, Bool.false_eq_true, if_false,
    sessionRequest, hauth, Bool.not_true, afterAuth, fetchW, h401, hok,
    Bool.not_false, if_true, RunResult.thrownOf, RunResult.state]
  exact ⟨trivial, trivial⟩

/-- C2 counterexample: a 500 response with an unparseable body makes
`request` throw `ZaphWorkError` with the literal message
`'Unknown error'` (installed by the `.catch` on `response.json()`),
not a message built from the HTTP status line, contradicting the
claimed fallback. -/
theorem request_unparseable_error_body_counterexample :
    request fixtureClient "/t" fixtureOptions ⟨true, none⟩ ⟨[badJson500Response], []⟩
      = .failure (.zaph (.generic "Unknown error" (some 500))) ⟨true, none⟩
          ⟨[], [{ url := "/t", method := none,
                  headers := [("Content-Type", "application/json")], body := none }]⟩
    ∧ "Unknown error" ≠ "Request failed: " ++ badJson500Response.statusText
    ∧ "Unknown error" ≠ badJson500Response.statusText := by
  refine ⟨rfl, ?_, ?_⟩ <;> decide

/-- C2 as amended: for every response to `request`'s session path
whose status is neither success nor 401, `request` throws a
`ZaphWorkError` carrying the response status, with the message taken
from the body's truthy `error` field when there is one, falling back
to `'Request failed: <statusText>'` when the body parses without one,
and to the fixed string `'Unknown error'` when the body is not
parseable JSON. -/
theorem request_error_response_failure :
    ∀ (c : Client) (ep : String) (opts : RequestOptions) (st : SessionState)
      (r : HttpResponse) (rest : List HttpResponse) (calls : List FetchCall),
      (strStartsWith ep "/api/x402/" && c.useX402) = false →
      st.authenticated = true →
      ¬ r.status = 401 →
      r.isOk = false →
      (request c ep opts st ⟨r :: rest, calls⟩).thrownOf
          = some (.zaph (.generic (errMessage r) (some r.status)))
      ∧ (request c ep opts st ⟨r :: rest, calls⟩).state = st
      ∧ (r.body = none → errMessage r = "Unknown error")
      ∧ (∀ b, r.body = some b → getField b "error" = none →
          errMessage r = "Request failed: " ++ r.statusText)
      ∧ (∀ b s, r.body = some b → getField b "error" = some (.str s) → s ≠ "" →
          errMessage r = s) := by
  intro c ep opts st r rest calls hx hauth h401 hok
  obtain ⟨hthrown, hstate⟩ :=
    request_authenticated_error_run c ep opts st r rest calls hx hauth h401 hok
  refine ⟨hthrown, hstate, ?_, ?_, ?_⟩
  · intro hb
    simp [errMessage, hb, errorFieldOr, getField, lookupField, JValue.truthy,
      JValue.displayString]
  · intro b hb he
    simp [errMessage, hb, errorFieldOr, he]
  · intro b s hb he hs
    simp [errMessage, hb, errorFieldOr, he, JValue.truthy, JValue.displayString, hs]

theorem request_error_response_failure_witness :
    (request fixtureClient "/t" fixtureOptions ⟨true, none⟩
        ⟨[badJson500Response], []⟩).thrownOf
      = some (.zaph (.generic (errMessage badJson500Response) (some 500)))
    ∧ errMessage badJson500Response = "Unknown error" :=
  ⟨(request_error_response_failure fixtureClient "/t" fixtureOptions ⟨true, none⟩
      badJson500Response [] [] rfl rfl (by decide) rfl).1,
   (request_error_response_failure fixtureClient "/t" fixtureOptions ⟨true, none⟩
      badJson500Response [] [] rfl rfl (by decide) rfl).2.2.1 rfl⟩

/-- C4: the polling loop of `waitForTaskStatus` returns the fetched
resource at the first poll whose status matches the target (given the
deadline has not passed), regardless of anything later in the trace —
no further polls; if no poll ever matches and some clock reading
reaches the deadline, it throws the timeout `ZaphWorkError` — which
carries no status code, so it is distinct from every API failure
`request` throws (those always carry the response status). -/
theorem waitForTaskStatus_match_or_timeout :
    (∀ (id tgt : String) (start tmo : Int) (pre : List (Int × JValue))
        (now : Int) (task : JValue) (rest : List (Int × JValue)),
      (∀ p ∈ pre, p.1 - start < tmo ∧ taskStatusIs p.2 tgt = false) →
      now - start < tmo → taskStatusIs task tgt = true →
      waitLoop id tgt start tmo (pre ++ (now, task) :: rest) = some (.ok task))
    ∧ (∀ (id tgt : String) (start tmo : Int) (trace : List (Int × JValue)),
      (∀ p ∈ trace, taskStatusIs p.2 tgt = false) →
      (∃ p ∈ trace, tmo ≤ p.1 - start) →
      waitLoop id tgt start tmo trace
        = some (.error (.generic (timeoutMessage id tgt) none)))
    ∧ (∀ (id tgt m : String) (s : Nat),
      ZaphWorkError.generic (timeoutMessage id tgt) none ≠ .generic m (some s)) := by
  refine ⟨?_, ?_, ?_⟩
  · intro id tgt start tmo pre
    induction pre with
    | nil =>
      intro now task rest _ hnow hmatch
      simp [waitLoop, hnow, hmatch]
    | cons q qs ih =>
      intro now task rest hpre hnow hmatch
      obtain ⟨t, tk⟩ := q
      obtain ⟨hq1, hq2⟩ := hpre (t, tk) (List.mem_cons_self _ _)
      simp only [List.cons_append, waitLoop, hq1, if_pos, hq2, Bool.false_eq_true,
        if_false]
      exact ih now task rest (fun p hp => hpre p (List.mem_cons_of_mem _ hp)) hnow hmatch
  · intro id tgt start tmo trace
    induction trace with
    | nil =>
      intro _ h2
      obtain ⟨p, hp, _⟩ := h2
      cases hp
    | cons q qs ih =>
      intro h1 h2
      obtain ⟨t, tk⟩ := q
      by_cases hlt : t - start < tmo
      · have htk := (h1 (t, tk) (List.mem_cons_self _ _)).symm
        simp only [waitLoop, hlt, if_pos, ← htk, Bool.false_eq_true, if_false]
        apply ih (fun p hp => h1 p (List.mem_cons_of_mem _ hp))
        obtain ⟨p, hp, hge⟩ := h2
        rcases List.mem_cons.mp hp with heq | hmem
        · subst heq
          exact absurd hge (by simpa using hlt)
        · exact ⟨p, hmem, hge⟩
      · simp [waitLoop, hlt]
  · intro id tgt m s h
    injection h with h1 h2
    exact Option.noConfusion h2

theorem waitForTaskStatus_match_or_timeout_witness :
    waitLoop "t1" "completed" 0 5000 [(6000, .obj [("status", .str "open")])]
      = some (.error (.generic (timeoutMessage "t1" "completed") none)) :=
  waitForTaskStatus_match_or_timeout.2.1 "t1" "completed" 0 5000
    [(6000, .obj [("status", .str "open")])]
    (by
      intro p hp
      rw [List.mem_singleton] at hp
      subst hp
      rfl)
    ⟨(6000, .obj [("status", .str "open")]), List.mem_singleton.mpr rfl, by decide⟩

/-- C1: a server that keeps answering the endpoint with 401 (while the
handshake succeeds) drives `request` into re-handshake-and-retry over
and over: after three 401s and nine scripted responses the run is
still in flight (`outOfTrace`, the recursion pending — not a thrown
`ZaphWorkError`), and the same endpoint has been called three times,
i.e. the second consecutive 401 triggered yet another re-handshake and
retry instead of propagating a failure carrying the status. -/
theorem request_persistent_401_keeps_retrying :
    (request fixtureClient "/t" fixtureOptions ⟨false, none⟩ persistent401World).isOutOfTrace
        = true
    ∧ countCalls (request fixtureClient "/t" fixtureOptions ⟨false, none⟩
        persistent401World).world "/t" = 3
    ∧ (request fixtureClient "/t" fixtureOptions ⟨false, none⟩
        persistent401World).isFailure = false := by
  refine ⟨rfl, rfl, rfl⟩

end ZaphWork

